import Mathlib

/-!
Shallow embedding of the mcp3221 IIO ADC driver (src/files/mcp3221.c) and
proofs of the specification claims about it. Machine integers are modelled
as Nat/Int with explicit wrap-around where the C code can overflow.
-/

/-- Errno constant EINVAL (invalid argument), value 22 on Linux. -/
def EINVAL : Int := 22

/-- Errno constant EOPNOTSUPP (operation not supported), value 95 on Linux. -/
def EOPNOTSUPP : Int := 95

/-- Errno constant ENOMEM (out of memory), value 12 on Linux. -/
def ENOMEM : Int := 12

/-- IIO format discriminator for a plain integer value. -/
def IIO_VAL_INT : Int := 1

/-- IIO format discriminator for an integer-plus-micro pair. -/
def IIO_VAL_INT_PLUS_MICRO : Int := 2

/-- IIO format discriminator for an integer-plus-nano pair. -/
def IIO_VAL_INT_PLUS_NANO : Int := 3

/-- IIO info-kind enum value for a raw sample request. -/
def IIO_CHAN_INFO_RAW : Nat := 0

/-- IIO info-kind enum value for a scale request. -/
def IIO_CHAN_INFO_SCALE : Nat := 2

/-- IIO info-kind enum value for a sampling-frequency request. -/
def IIO_CHAN_INFO_SAMP_FREQ : Nat := 12

/-- Linux sign_extend32: shift the value left so that bit `index` lands on
bit 31 of a u32 (wrapping modulo 2^32), reinterpret as a signed 32-bit
integer, then arithmetic-shift right by the same amount (floor division). -/
def sign_extend32 (value : Nat) (index : Nat) : Int :=
  let shift : Nat := 31 - index
  let shifted : Nat := (value * 2 ^ shift) % 2 ^ 32
  let s : Int := if shifted < 2 ^ 31 then (shifted : Int) else (shifted : Int) - 2 ^ 32
  Int.fdiv s (2 ^ shift)

/-- get_unaligned_be16: read two bytes of a buffer as a big-endian 16-bit
unsigned integer. -/
def get_unaligned_be16 (buf : List Nat) : Nat :=
  buf.getD 0 0 * 256 + buf.getD 1 0

/-- Outcome of i2c_master_recv when asked for 2 bytes: either the two bytes
received from the device (most significant first) or a negative errno. -/
inductive I2cResult where
  | ok (b0 b1 : Nat)
  | error (e : Int)
deriving DecidableEq

/-- Observable events on the device: the construction-time capability probe,
taking and dropping the per-device mutex, and a bus receive of n bytes. -/
inductive BusEvent where
  | capCheck
  | lock
  | recv (n : Nat)
  | unlock
deriving DecidableEq

/-- Client data struct mcp3221: the i2c client handle (opaque id here), the
u8 chip id field, and the mutex state (held or free). -/
structure Mcp3221 where
  i2c : Nat
  id : Nat
  lockHeld : Bool
deriving DecidableEq

/-- mcp3221_read: zero-initialize a 4-byte buffer, receive 2 bytes over i2c
into it (bytes are u8, so stored modulo 256; on failure the buffer keeps its
zeros), decode the first two bytes as big-endian 16-bit, sign-extend from
bit 11 into the output slot, and return the i2c return code (byte count on
success, negative errno on failure). Returns (ret, value written). -/
def mcp3221_read (recv : I2cResult) : Int × Int :=
  let buf : List Nat :=
    match recv with
    | I2cResult.ok b0 b1 => [b0 % 256, b1 % 256, 0, 0]
    | I2cResult.error _ => [0, 0, 0, 0]
  let ret : Int :=
    match recv with
    | I2cResult.ok _ _ => 2
    | I2cResult.error e => e
  let temp : Nat := get_unaligned_be16 buf
  (ret, sign_extend32 temp 11)

/-- mcp3221_read_channel: take the per-device mutex, perform mcp3221_read,
drop the mutex, return the read result. The requested channel index is read
into a local (req_channel) but never used. Returns
(ret, value, device state after, event trace). -/
def mcp3221_read_channel (adc : Mcp3221) (recv : I2cResult) (channel : Nat) :
    Int × Int × Mcp3221 × List BusEvent :=
  let req_channel : Nat := channel % 256
  let r := mcp3221_read recv
  (r.1, r.2, { adc with lockHeld := false },
    [BusEvent.lock, BusEvent.recv 2, BusEvent.unlock])

/-- Result of an iio read_raw or write_raw callback: the return code
(an IIO_VAL format discriminator or a negative errno), the two
caller-supplied value slots after the call, the device state after the
call, and the trace of bus events the call produced. -/
structure IioOut where
  ret : Int
  val1 : Int
  val2 : Int
  adc : Mcp3221
  trace : List BusEvent
deriving DecidableEq

/-- mcp3221_read_raw: dispatch on the requested info kind. RAW performs a
locked bus read and maps a negative result to -EINVAL; SCALE writes the
constant pair (0, 3300000000/4096) with the integer-plus-nano discriminator
(3300000000/4096 is integer division, truncated); SAMP_FREQ writes the
constant 5500 with the plain-integer discriminator; anything else returns
-EINVAL and touches nothing. -/
def mcp3221_read_raw (adc : Mcp3221) (recv : I2cResult) (channel : Nat)
    (val1 val2 : Int) (mask : Nat) : IioOut :=
  if mask = IIO_CHAN_INFO_RAW then
    let r := mcp3221_read_channel adc recv channel
    if r.1 < 0 then
      { ret := -EINVAL, val1 := r.2.1, val2 := val2, adc := r.2.2.1, trace := r.2.2.2 }
    else
      { ret := IIO_VAL_INT, val1 := r.2.1, val2 := val2, adc := r.2.2.1, trace := r.2.2.2 }
  else if mask = IIO_CHAN_INFO_SCALE then
    { ret := IIO_VAL_INT_PLUS_NANO, val1 := 0, val2 := ((3300000000 / 4096 : Nat) : Int),
      adc := adc, trace := [] }
  else if mask = IIO_CHAN_INFO_SAMP_FREQ then
    { ret := IIO_VAL_INT, val1 := 5500, val2 := val2, adc := adc, trace := [] }
  else
    { ret := -EINVAL, val1 := val1, val2 := val2, adc := adc, trace := [] }

/-- mcp3221_write_raw: every mask (SCALE, SAMP_FREQ, and the default case)
returns -EINVAL; the device is untouched and no bus event occurs. Returns
(ret, device state after, event trace). -/
def mcp3221_write_raw (adc : Mcp3221) (channel : Nat) (val1 val2 : Int)
    (mask : Nat) : Int × Mcp3221 × List BusEvent :=
  if mask = IIO_CHAN_INFO_SCALE then (-EINVAL, adc, [])
  else if mask = IIO_CHAN_INFO_SAMP_FREQ then (-EINVAL, adc, [])
  else (-EINVAL, adc, [])

/-- Environment of a probe call: whether i2c_check_functionality reports the
I2C_FUNC_I2C capability, whether devm_iio_device_alloc succeeds, and the
return code of devm_iio_device_register. -/
structure ProbeEnv where
  i2cFunc : Bool
  allocOk : Bool
  registerRet : Int
deriving DecidableEq

/-- mcp3221_probe: check the adapter capability first and fail with
-EOPNOTSUPP if absent; then allocate the iio device (-ENOMEM on failure),
initialize the client data (mutex free) and register; on success return 0
and the created device. Returns (ret, created device if any, event trace). -/
def mcp3221_probe (client : Nat) (env : ProbeEnv) :
    Int × Option Mcp3221 × List BusEvent :=
  let events := [BusEvent.capCheck]
  if env.i2cFunc = false then (-EOPNOTSUPP, none, events)
  else if env.allocOk = false then (-ENOMEM, none, events)
  else if env.registerRet < 0 then (env.registerRet, none, events)
  else (0, some { i2c := client, id := 0, lockHeld := false }, events)

/-- A concrete device value used to instantiate universally quantified
device arguments in witnesses and counterexamples. -/
def adc0 : Mcp3221 := { i2c := 0, id := 0, lockHeld := false }

/-- Shifting left by 20 and wrapping modulo 2^32 only keeps the low 12 bits
of the input. -/
theorem shl20_mod32 (temp : Nat) :
    (temp * 2 ^ 20) % 2 ^ 32 = (temp % 4096) * 2 ^ 20 := by
  have h32 : (2 : Nat) ^ 32 = 4096 * 2 ^ 20 := by norm_num
  rw [h32, Nat.mul_mod_mul_right]

/-- Characterization of sign_extend32 at index 11: the result depends only
on the low 12 bits; it is those bits if they are below 2048 and those bits
minus 4096 otherwise. -/
theorem sign_extend32_eleven (temp : Nat) :
    sign_extend32 temp 11 =
      if 2048 ≤ temp % 4096 then ((temp % 4096 : Nat) : Int) - 4096
      else ((temp % 4096 : Nat) : Int) := by
  have h20 : (31 - 11 : Nat) = 20 := by norm_num
  have ht : temp % 4096 < 4096 := Nat.mod_lt _ (by norm_num)
  simp only [sign_extend32, h20, shl20_mod32]
  by_cases hc : 2048 ≤ temp % 4096
  · have hge : ¬ (temp % 4096) * 2 ^ 20 < 2 ^ 31 := by
      have h1 : (2 : Nat) ^ 20 = 1048576 := by norm_num
      have h2 : (2 : Nat) ^ 31 = 2147483648 := by norm_num
      rw [h1, h2]
      omega
    have hs : ((((temp % 4096) * 2 ^ 20 : Nat) : Int) - 2 ^ 32) =
        (((temp % 4096 : Nat) : Int) - 4096) * 2 ^ 20 := by
      push_cast
      ring
    rw [if_neg hge, if_pos hc, hs, Int.mul_fdiv_cancel _ (by norm_num)]
  · have hlt : (temp % 4096) * 2 ^ 20 < 2 ^ 31 := by
      have h1 : (2 : Nat) ^ 20 = 1048576 := by norm_num
      have h2 : (2 : Nat) ^ 31 = 2147483648 := by norm_num
      rw [h1, h2]
      omega
    have hs : (((temp % 4096) * 2 ^ 20 : Nat) : Int) =
        ((temp % 4096 : Nat) : Int) * 2 ^ 20 := by
      push_cast
      ring
    rw [if_pos hlt, if_neg hc, hs, Int.mul_fdiv_cancel _ (by norm_num)]

/-- Bit 11 of a natural number is set exactly when its low 12 bits are at
least 2048. -/
theorem testBit_eleven (temp : Nat) :
    temp.testBit 11 = true ↔ 2048 ≤ temp % 4096 := by
  rw [Nat.testBit_to_div_mod]
  simp only [decide_eq_true_eq]
  omega

/-- Claim C1: for every 2-byte input read as an unsigned 16-bit big-endian
integer temp, the decode step of mcp3221_read returns temp's low 12 bits
unchanged when bit 11 of temp is clear and (low 12 bits) - 4096 when bit 11
is set; in particular bytes [0x00,0x64] decode to 100, [0x08,0x64] to
-1948, and [0x0F,0xFF] to -1. -/
theorem claim_C1_decode (b0 b1 : Nat) (hb0 : b0 < 256) (hb1 : b1 < 256) :
    ((mcp3221_read (I2cResult.ok b0 b1)).2 =
      if (b0 * 256 + b1).testBit 11
      then (((b0 * 256 + b1) % 4096 : Nat) : Int) - 4096
      else (((b0 * 256 + b1) % 4096 : Nat) : Int))
    ∧ (mcp3221_read (I2cResult.ok 0x00 0x64)).2 = 100
    ∧ (mcp3221_read (I2cResult.ok 0x08 0x64)).2 = -1948
    ∧ (mcp3221_read (I2cResult.ok 0x0F 0xFF)).2 = -1 := by
  refine ⟨?_, by decide, by decide, by decide⟩
  have hval : (mcp3221_read (I2cResult.ok b0 b1)).2 =
      sign_extend32 (b0 * 256 + b1) 11 := by
    simp [mcp3221_read, get_unaligned_be16, Nat.mod_eq_of_lt hb0,
      Nat.mod_eq_of_lt hb1]
  rw [hval, sign_extend32_eleven]
  by_cases hc : 2048 ≤ (b0 * 256 + b1) % 4096
  · rw [if_pos hc, if_pos ((testBit_eleven _).mpr hc)]
  · have hbit : ¬ (b0 * 256 + b1).testBit 11 = true :=
      fun h => hc ((testBit_eleven _).mp h)
    rw [if_neg hc, if_neg hbit]

/-- Witness for claim C1 at the concrete bytes 0x08 and 0x64. -/
theorem claim_C1_witness :
    (8 : Nat) < 256 ∧ (100 : Nat) < 256 ∧
    (((mcp3221_read (I2cResult.ok 8 100)).2 =
      if (8 * 256 + 100 : Nat).testBit 11
      then (((8 * 256 + 100) % 4096 : Nat) : Int) - 4096
      else (((8 * 256 + 100) % 4096 : Nat) : Int))
    ∧ (mcp3221_read (I2cResult.ok 0x00 0x64)).2 = 100
    ∧ (mcp3221_read (I2cResult.ok 0x08 0x64)).2 = -1948
    ∧ (mcp3221_read (I2cResult.ok 0x0F 0xFF)).2 = -1) :=
  ⟨by decide, by decide, claim_C1_decode 8 100 (by decide) (by decide)⟩

/-- Claim C8: for every 16-bit input temp, decoding temp yields the same
result as decoding temp with bits 12 to 15 cleared: sign_extend32 at index
11 ignores the top 4 bits of the 16-bit transfer entirely. -/
theorem claim_C8_decode_masked (temp : Nat) (h : temp < 65536) :
    sign_extend32 temp 11 = sign_extend32 (temp &&& 4095) 11 := by
  have hand : temp &&& 4095 = temp % 4096 := by
    have h12 := Nat.and_pow_two_sub_one_eq_mod temp 12
    norm_num at h12
    exact h12
  rw [hand, sign_extend32_eleven, sign_extend32_eleven]
  have hmm : temp % 4096 % 4096 = temp % 4096 := by omega
  rw [hmm]

/-- Witness for claim C8 at the concrete 16-bit input 0xF064. -/
theorem claim_C8_witness :
    (61540 : Nat) < 65536 ∧
    sign_extend32 61540 11 = sign_extend32 (61540 &&& 4095) 11 :=
  ⟨by decide, claim_C8_decode_masked 61540 (by decide)⟩

/-- Claim C2: every read of the SCALE info kind returns exactly the pair
(0, 805664) with the integer-plus-nano format discriminator, independent of
device state and of the transport outcome, and 805664 is the truncated
integer quotient 3300000000 / 4096. -/
theorem claim_C2_scale (adc : Mcp3221) (recv : I2cResult) (channel : Nat)
    (val1 val2 : Int) :
    mcp3221_read_raw adc recv channel val1 val2 IIO_CHAN_INFO_SCALE =
      { ret := IIO_VAL_INT_PLUS_NANO, val1 := 0, val2 := 805664,
        adc := adc, trace := [] }
    ∧ (3300000000 / 4096 : Nat) = 805664 := by
  constructor
  · rfl
  · rfl

/-- Claim C3: every read of the SAMPLING_FREQUENCY info kind returns
exactly 5500 with the plain-integer format discriminator, independent of
device state and of the transport outcome, and never fails. -/
theorem claim_C3_samp_freq (adc : Mcp3221) (recv : I2cResult) (channel : Nat)
    (val1 val2 : Int) :
    mcp3221_read_raw adc recv channel val1 val2 IIO_CHAN_INFO_SAMP_FREQ =
      { ret := IIO_VAL_INT, val1 := 5500, val2 := val2,
        adc := adc, trace := [] } := by
  rfl

/-- Helper: the full result of a RAW read when the transport fails with a
negative errno: return -EINVAL, write 0 into val1, leave val2 alone, leave
the lock free, and the trace shows lock, receive, unlock. -/
theorem read_raw_fail (adc : Mcp3221) (channel : Nat) (val1 val2 : Int)
    (e : Int) (he : e < 0) :
    mcp3221_read_raw adc (I2cResult.error e) channel val1 val2
        IIO_CHAN_INFO_RAW =
      { ret := -EINVAL, val1 := 0, val2 := val2,
        adc := { adc with lockHeld := false },
        trace := [BusEvent.lock, BusEvent.recv 2, BusEvent.unlock] } := by
  have hz : sign_extend32 (get_unaligned_be16 [0, 0, 0, 0]) 11 = 0 := by decide
  simp only [mcp3221_read_raw, mcp3221_read_channel, mcp3221_read,
    IIO_CHAN_INFO_RAW, hz]
  norm_num [he]

/-- Claim C4: every RAW read takes the per-device lock and releases it
before returning, on every exit path including transport failure: the event
trace of mcp3221_read_channel is lock, receive, unlock for every transport
outcome, the lock is free afterwards, and when the bus transaction fails
the caller gets the read-failure error -EINVAL (a negative code, not a
success value) with the lock free, so a subsequent read is not blocked. -/
theorem claim_C4_lock_discipline (adc : Mcp3221) (recv : I2cResult)
    (channel : Nat) (val1 val2 : Int) (e : Int) (he : e < 0) :
    (mcp3221_read_channel adc recv channel).2.2.2 =
      [BusEvent.lock, BusEvent.recv 2, BusEvent.unlock]
    ∧ (mcp3221_read_channel adc recv channel).2.2.1.lockHeld = false
    ∧ (mcp3221_read_raw adc (I2cResult.error e) channel val1 val2
        IIO_CHAN_INFO_RAW).ret = -EINVAL
    ∧ (mcp3221_read_raw adc (I2cResult.error e) channel val1 val2
        IIO_CHAN_INFO_RAW).ret < 0
    ∧ (mcp3221_read_raw adc (I2cResult.error e) channel val1 val2
        IIO_CHAN_INFO_RAW).adc.lockHeld = false := by
  refine ⟨rfl, rfl, ?_, ?_, ?_⟩ <;>
    rw [read_raw_fail adc channel val1 val2 e he]
  show (-EINVAL : Int) < 0
  decide

/-- Witness for claim C4 at a concrete device, transport outcome and
errno. -/
theorem claim_C4_witness :
    (-5 : Int) < 0
    ∧ ((mcp3221_read_channel adc0 (I2cResult.ok 0 100) 0).2.2.2 =
        [BusEvent.lock, BusEvent.recv 2, BusEvent.unlock]
      ∧ (mcp3221_read_channel adc0 (I2cResult.ok 0 100) 0).2.2.1.lockHeld = false
      ∧ (mcp3221_read_raw adc0 (I2cResult.error (-5)) 0 7 9
          IIO_CHAN_INFO_RAW).ret = -EINVAL
      ∧ (mcp3221_read_raw adc0 (I2cResult.error (-5)) 0 7 9
          IIO_CHAN_INFO_RAW).ret < 0
      ∧ (mcp3221_read_raw adc0 (I2cResult.error (-5)) 0 7 9
          IIO_CHAN_INFO_RAW).adc.lockHeld = false) :=
  ⟨by decide, claim_C4_lock_discipline adc0 (I2cResult.ok 0 100) 0 7 9 (-5) (by decide)⟩

/-- Claim C5: for every info kind outside RAW, SCALE and SAMP_FREQ the read
callback returns -EINVAL with the value slots, device state and event trace
untouched, and every write attempt, for every mask and values, returns
-EINVAL with the device untouched and no bus event. -/
theorem claim_C5_invalid_requests (adc : Mcp3221) (recv : I2cResult)
    (channel : Nat) (val1 val2 : Int) (mask : Nat)
    (h0 : mask ≠ IIO_CHAN_INFO_RAW) (h2 : mask ≠ IIO_CHAN_INFO_SCALE)
    (h12 : mask ≠ IIO_CHAN_INFO_SAMP_FREQ) :
    mcp3221_read_raw adc recv channel val1 val2 mask =
      { ret := -EINVAL, val1 := val1, val2 := val2, adc := adc, trace := [] }
    ∧ ∀ (wmask : Nat) (wv1 wv2 : Int),
        mcp3221_write_raw adc channel wv1 wv2 wmask = (-EINVAL, adc, []) := by
  constructor
  · simp [mcp3221_read_raw, h0, h2, h12]
  · intro wmask wv1 wv2
    unfold mcp3221_write_raw
    split
    · rfl
    · split <;> rfl

/-- Witness for claim C5 at the concrete unsupported info kind 1
(IIO_CHAN_INFO_PROCESSED). -/
theorem claim_C5_witness :
    (1 : Nat) ≠ IIO_CHAN_INFO_RAW ∧ (1 : Nat) ≠ IIO_CHAN_INFO_SCALE
    ∧ (1 : Nat) ≠ IIO_CHAN_INFO_SAMP_FREQ
    ∧ (mcp3221_read_raw adc0 (I2cResult.ok 0 100) 0 7 9 1 =
        { ret := -EINVAL, val1 := 7, val2 := 9, adc := adc0, trace := [] }
      ∧ ∀ (wmask : Nat) (wv1 wv2 : Int),
          mcp3221_write_raw adc0 0 wv1 wv2 wmask = (-EINVAL, adc0, [])) :=
  ⟨by decide, by decide, by decide,
    claim_C5_invalid_requests adc0 (I2cResult.ok 0 100) 0 7 9 1
      (by decide) (by decide) (by decide)⟩

/-- Claim C6: when the bound transport lacks the i2c capability, probe
fails with -EOPNOTSUPP and creates no device; when the capability is
present, the capability probe happens exactly once during construction; and
the read path never performs a capability probe for any info kind or
transport outcome. -/
theorem claim_C6_probe_capability (client : Nat) (env : ProbeEnv)
    (hno : env.i2cFunc = false) :
    mcp3221_probe client env = (-EOPNOTSUPP, none, [BusEvent.capCheck])
    ∧ (∀ env2 : ProbeEnv, env2.i2cFunc = true →
        (mcp3221_probe client env2).2.2.count BusEvent.capCheck = 1)
    ∧ (∀ (adc : Mcp3221) (recv : I2cResult) (channel : Nat)
        (val1 val2 : Int) (mask : Nat),
        BusEvent.capCheck ∉
          (mcp3221_read_raw adc recv channel val1 val2 mask).trace) := by
  refine ⟨?_, ?_, ?_⟩
  · simp [mcp3221_probe, hno]
  · intro env2 henv2
    simp only [mcp3221_probe]
    split
    · rfl
    · split
      · rfl
      · split <;> rfl
  · intro adc recv channel val1 val2 mask
    simp only [mcp3221_read_raw]
    split
    · split <;> simp [mcp3221_read_channel]
    · split
      · simp
      · split <;> simp

/-- Witness for claim C6 at a concrete probe environment lacking the
capability. -/
theorem claim_C6_witness :
    ProbeEnv.i2cFunc { i2cFunc := false, allocOk := true, registerRet := 0 } = false
    ∧ (mcp3221_probe 0 { i2cFunc := false, allocOk := true, registerRet := 0 } =
        (-EOPNOTSUPP, none, [BusEvent.capCheck])
      ∧ (∀ env2 : ProbeEnv, env2.i2cFunc = true →
          (mcp3221_probe 0 env2).2.2.count BusEvent.capCheck = 1)
      ∧ (∀ (adc : Mcp3221) (recv : I2cResult) (channel : Nat)
          (val1 val2 : Int) (mask : Nat),
          BusEvent.capCheck ∉
            (mcp3221_read_raw adc recv channel val1 val2 mask).trace)) :=
  ⟨by decide,
    claim_C6_probe_capability 0 { i2cFunc := false, allocOk := true, registerRet := 0 }
      (by decide)⟩

/-- Claim C7: the channel index passed by the framework never influences
the outcome: for the same device, transport behaviour, value slots and info
kind, two invocations that differ only in the channel index return
identical results, both at the mcp3221_read_channel level and at the
mcp3221_read_raw level. -/
theorem claim_C7_channel_noninterference (adc : Mcp3221) (recv : I2cResult)
    (ch1 ch2 : Nat) (val1 val2 : Int) (mask : Nat) :
    mcp3221_read_channel adc recv ch1 = mcp3221_read_channel adc recv ch2
    ∧ mcp3221_read_raw adc recv ch1 val1 val2 mask =
        mcp3221_read_raw adc recv ch2 val1 val2 mask :=
  ⟨rfl, rfl⟩

/-- Claim C9 counterexample: at the concrete inputs below, the error
returned for a read-time bus-transaction failure and the error returned
for an unsupported info kind are the same value -EINVAL = -22, so the two
outcomes are not distinguishable, contrary to the claim. -/
theorem claim_C9_counterexample :
    (mcp3221_read_raw adc0 (I2cResult.error (-121)) 0 0 0
      IIO_CHAN_INFO_RAW).ret = -22
    ∧ (mcp3221_read_raw adc0 (I2cResult.ok 0 100) 0 0 0 1).ret = -22
    ∧ (mcp3221_read_raw adc0 (I2cResult.error (-121)) 0 0 0
        IIO_CHAN_INFO_RAW).ret =
      (mcp3221_read_raw adc0 (I2cResult.ok 0 100) 0 0 0 1).ret := by
  refine ⟨?_, ?_, ?_⟩ <;> decide

/-- Claim C9 amended: construction failure returns -EOPNOTSUPP, which
differs from the -EINVAL returned for a read-time bus failure, so
construction-time and read-time failures are distinguishable; but a
read-time bus failure, an unsupported info kind and a write attempt all
return the same error -EINVAL, so those outcomes are not distinguishable
from each other. -/
theorem claim_C9_error_codes (client : Nat) (env : ProbeEnv)
    (hno : env.i2cFunc = false) (adc : Mcp3221) (recv : I2cResult)
    (channel : Nat) (val1 val2 : Int) (e : Int) (he : e < 0) (mask : Nat)
    (h0 : mask ≠ IIO_CHAN_INFO_RAW) (h2 : mask ≠ IIO_CHAN_INFO_SCALE)
    (h12 : mask ≠ IIO_CHAN_INFO_SAMP_FREQ) (wmask : Nat) (wv1 wv2 : Int) :
    (mcp3221_probe client env).1 = -EOPNOTSUPP
    ∧ (mcp3221_read_raw adc (I2cResult.error e) channel val1 val2
        IIO_CHAN_INFO_RAW).ret = -EINVAL
    ∧ (mcp3221_probe client env).1 ≠
        (mcp3221_read_raw adc (I2cResult.error e) channel val1 val2
          IIO_CHAN_INFO_RAW).ret
    ∧ (mcp3221_read_raw adc (I2cResult.error e) channel val1 val2
        IIO_CHAN_INFO_RAW).ret =
        (mcp3221_read_raw adc recv channel val1 val2 mask).ret
    ∧ (mcp3221_read_raw adc recv channel val1 val2 mask).ret =
        (mcp3221_write_raw adc channel wv1 wv2 wmask).1 := by
  have hp : (mcp3221_probe client env).1 = -EOPNOTSUPP := by
    simp [mcp3221_probe, hno]
  have hr := read_raw_fail adc channel val1 val2 e he
  have hi : mcp3221_read_raw adc recv channel val1 val2 mask =
      { ret := -EINVAL, val1 := val1, val2 := val2, adc := adc, trace := [] } := by
    simp [mcp3221_read_raw, h0, h2, h12]
  have hw : (mcp3221_write_raw adc channel wv1 wv2 wmask).1 = -EINVAL := by
    simp only [mcp3221_write_raw]
    split
    · rfl
    · split <;> rfl
  refine ⟨hp, ?_, ?_, ?_, ?_⟩
  · rw [hr]
  · rw [hp, hr]
    show (-EOPNOTSUPP : Int) ≠ -EINVAL
    decide
  · rw [hr, hi]
  · rw [hi, hw]

/-- Witness for the amended claim C9 at concrete inputs. -/
theorem claim_C9_witness :
    ProbeEnv.i2cFunc { i2cFunc := false, allocOk := true, registerRet := 0 } = false
    ∧ (-5 : Int) < 0
    ∧ (1 : Nat) ≠ IIO_CHAN_INFO_RAW ∧ (1 : Nat) ≠ IIO_CHAN_INFO_SCALE
    ∧ (1 : Nat) ≠ IIO_CHAN_INFO_SAMP_FREQ
    ∧ ((mcp3221_probe 0 { i2cFunc := false, allocOk := true, registerRet := 0 }).1
        = -EOPNOTSUPP
      ∧ (mcp3221_read_raw adc0 (I2cResult.error (-5)) 0 7 9
          IIO_CHAN_INFO_RAW).ret = -EINVAL
      ∧ (mcp3221_probe 0 { i2cFunc := false, allocOk := true, registerRet := 0 }).1 ≠
          (mcp3221_read_raw adc0 (I2cResult.error (-5)) 0 7 9
            IIO_CHAN_INFO_RAW).ret
      ∧ (mcp3221_read_raw adc0 (I2cResult.error (-5)) 0 7 9
          IIO_CHAN_INFO_RAW).ret =
          (mcp3221_read_raw adc0 (I2cResult.ok 0 100) 0 7 9 1).ret
      ∧ (mcp3221_read_raw adc0 (I2cResult.ok 0 100) 0 7 9 1).ret =
          (mcp3221_write_raw adc0 0 3 4 2).1) :=
  ⟨by decide, by decide, by decide, by decide, by decide,
    claim_C9_error_codes 0 { i2cFunc := false, allocOk := true, registerRet := 0 }
      (by decide) adc0 (I2cResult.ok 0 100) 0 7 9 (-5) (by decide) 1
      (by decide) (by decide) (by decide) 2 3 4⟩

/-- Claim C10: when the bus transaction fails inside mcp3221_read, the
output slot is still written before the error is returned: the receive
buffer was zero-initialized, so the caller-supplied value slot is
overwritten with the decode of zero, which is 0, regardless of its previous
contents, while the call reports failure; the read is not atomic with
respect to its output parameter on the error path. -/
theorem claim_C10_output_on_error (adc : Mcp3221) (channel : Nat)
    (val1 val2 : Int) (e : Int) (he : e < 0) :
    mcp3221_read (I2cResult.error e) = (e, 0)
    ∧ sign_extend32 0 11 = 0
    ∧ (mcp3221_read_raw adc (I2cResult.error e) channel val1 val2
        IIO_CHAN_INFO_RAW).val1 = 0
    ∧ (mcp3221_read_raw adc (I2cResult.error e) channel val1 val2
        IIO_CHAN_INFO_RAW).ret = -EINVAL := by
  have hz : sign_extend32 (get_unaligned_be16 [0, 0, 0, 0]) 11 = 0 := by decide
  refine ⟨?_, by decide, ?_, ?_⟩
  · show (e, sign_extend32 (get_unaligned_be16 [0, 0, 0, 0]) 11) = (e, 0)
    rw [hz]
  · rw [read_raw_fail adc channel val1 val2 e he]
  · rw [read_raw_fail adc channel val1 val2 e he]

/-- Witness for claim C10 at a concrete errno and a nonzero initial value
slot. -/
theorem claim_C10_witness :
    (-5 : Int) < 0
    ∧ (mcp3221_read (I2cResult.error (-5)) = (-5, 0)
      ∧ sign_extend32 0 11 = 0
      ∧ (mcp3221_read_raw adc0 (I2cResult.error (-5)) 0 42 9
          IIO_CHAN_INFO_RAW).val1 = 0
      ∧ (mcp3221_read_raw adc0 (I2cResult.error (-5)) 0 42 9
          IIO_CHAN_INFO_RAW).ret = -EINVAL) :=
  ⟨by decide, claim_C10_output_on_error adc0 0 42 9 (-5) (by decide)⟩
